import Mathlib

/-!
Verification of the Fish-Net API entry point (src/api/index.py).

The source is a FastAPI application: it loads environment variables via
dotenv, constructs one application object with static metadata, attaches a
permissive CORS middleware, and registers two GET handlers (`root` at path
"/" and `health_check` at path "/api/health") that return fixed JSON
literals.  The embedding below models the JSON values, the request and
response shapes, the application state, and the request dispatch, all
translated directly from the source; the framework dispatch defaults
(404 for unknown routes, 405 for wrong methods) and the application of the
configured CORS headers to responses are framework behaviour modelled from
the specification.
-/

/-- JSON values, restricted to the shapes that occur in the source:
string leaves and objects with string keys. -/
inductive Json where
  | str : String → Json
  | obj : List (String × Json) → Json

/-- Field lookup in a JSON object; `none` on a non-object or missing key. -/
def jsonLookup : Json → String → Option Json
  | Json.obj kvs, k => kvs.lookup k
  | Json.str _, _ => none

/-- The `HTTPException` type imported at src/api/index.py line 1
(a status code together with a detail message).  It is imported but never
raised by the source. -/
structure HTTPException where
  status_code : Nat
  detail : String

/-- An incoming HTTP request, reduced to the data the source dispatches on:
the method and the path. -/
structure Request where
  method : String
  path : String

/-- An outgoing HTTP response: status code, headers, JSON body. -/
structure Response where
  status : Nat
  headers : List (String × String)
  body : Json

/-- The CORS middleware configuration recognized by
`app.add_middleware(CORSMiddleware, ...)`. -/
structure CORSConfig where
  allow_origins : List String
  allow_credentials : Bool
  allow_methods : List String
  allow_headers : List String

/-- The CORS configuration installed at src/api/index.py lines 16-22:
all origins, credentials allowed, all methods, all headers. -/
def corsConfig : CORSConfig :=
  { allow_origins := ["*"]
    allow_credentials := true
    allow_methods := ["*"]
    allow_headers := ["*"] }

/-- Modelled from the spec: the CORS middleware itself is framework code not
in src/; per the spec it puts the configured cross-origin headers on every
response (allow-origin, allow-credentials, allow-methods, allow-headers). -/
def corsHeaders (c : CORSConfig) : List (String × String) :=
  [("access-control-allow-origin", String.intercalate ", " c.allow_origins),
   ("access-control-allow-credentials",
     if c.allow_credentials then "true" else "false"),
   ("access-control-allow-methods", String.intercalate ", " c.allow_methods),
   ("access-control-allow-headers", String.intercalate ", " c.allow_headers)]

/-- The application metadata passed to the `FastAPI(...)` constructor. -/
structure FastAPIApp where
  title : String
  description : String
  version : String

/-- The application instance constructed at src/api/index.py lines 10-14. -/
def app : FastAPIApp :=
  { title := "Fish-Net API"
    description := "AI 에이전트 기반 역할 배정 및 교육 지원 솔루션"
    version := "0.5.0" }

/-- A process environment: an association list of variable names to values. -/
abbrev Env := List (String × String)

/-- Modelled from the spec: `load_dotenv` (src/api/index.py line 8) is
library code not in src/; per the spec it merges the optional `.env` file
variables into the process environment and is a no-op when the file is
absent.  No variable is consumed by the shown logic. -/
def load_dotenv (dotenvFile : Option Env) (processEnv : Env) : Env :=
  match dotenvFile with
  | none => processEnv
  | some vs => processEnv ++ vs

/-- The body returned by the root handler (src/api/index.py line 27). -/
def rootBody : Json :=
  Json.obj [("message", Json.str "Fish-Net API is running"),
            ("version", Json.str "0.5.0")]

/-- The body returned by the health handler (src/api/index.py line 32). -/
def healthBody : Json :=
  Json.obj [("status", Json.str "healthy")]

/-- The root handler (src/api/index.py lines 25-27).  The `Except` channel
models the handler's ability to raise the imported `HTTPException`; the
source body is a single return of a literal, hence always `Except.ok`. -/
def root : Except HTTPException Json :=
  Except.ok rootBody

/-- The health handler (src/api/index.py lines 30-32), likewise a single
return of a literal. -/
def health_check : Except HTTPException Json :=
  Except.ok healthBody

/-- The whole observable program state: the application object with its
metadata, the installed CORS configuration, and the loaded environment
(the only module-level state in src/api/index.py). -/
structure AppState where
  app : FastAPIApp
  cors : CORSConfig
  env : Env

/-- The state after startup: the constructed application, the installed
CORS configuration, and the environment as left by `load_dotenv`. -/
def initState (dotenvFile : Option Env) (processEnv : Env) : AppState :=
  { app := app, cors := corsConfig, env := load_dotenv dotenvFile processEnv }

/-- A successful handler response: status 200, the configured CORS headers,
and the handler's JSON body. -/
def okResponse (c : CORSConfig) (b : Json) : Response :=
  { status := 200, headers := corsHeaders c, body := b }

/-- A response built from a raised `HTTPException` (framework behaviour:
the exception's status code and a detail object). -/
def exceptionResponse (c : CORSConfig) (e : HTTPException) : Response :=
  { status := e.status_code, headers := corsHeaders c,
    body := Json.obj [("detail", Json.str e.detail)] }

/-- Modelled from the spec: the framework default response for an unknown
route, "typically a 404 for unknown routes". -/
def notFoundResponse (c : CORSConfig) : Response :=
  { status := 404, headers := corsHeaders c,
    body := Json.obj [("detail", Json.str "Not Found")] }

/-- Modelled from the spec: the framework default response for a known path
with an unregistered method, "405 for wrong methods". -/
def methodNotAllowedResponse (c : CORSConfig) : Response :=
  { status := 405, headers := corsHeaders c,
    body := Json.obj [("detail", Json.str "Method Not Allowed")] }

/-- Dispatch of one request against the registered routes.  The two route
registrations (`@app.get` on "/" and on "/api/health") are from the source;
the fallthrough defaults are the framework behaviour modelled from the
spec.  The returned state is the state after handling: the source handlers
touch no state, so the input state is returned as is. -/
def handleRequestSt (s : AppState) (req : Request) : Response × AppState :=
  let resp :=
    if req.method = "GET" ∧ req.path = "/" then
      match root with
      | Except.ok b => okResponse s.cors b
      | Except.error e => exceptionResponse s.cors e
    else if req.method = "GET" ∧ req.path = "/api/health" then
      match health_check with
      | Except.ok b => okResponse s.cors b
      | Except.error e => exceptionResponse s.cors e
    else if req.path = "/" ∨ req.path = "/api/health" then
      methodNotAllowedResponse s.cors
    else
      notFoundResponse s.cors
  (resp, s)

/-- The response to a single request, given the loaded environment. -/
def handleRequest (env : Env) (req : Request) : Response :=
  (handleRequestSt { app := app, cors := corsConfig, env := env } req).1

/-- Handling a sequence of requests one after another, threading the
program state through the calls. -/
def runAll (s : AppState) (reqs : List Request) : List Response × AppState :=
  match reqs with
  | [] => ([], s)
  | r :: rest =>
    let p := handleRequestSt s r
    let q := runAll p.2 rest
    (p.1 :: q.1, q.2)

/-- C1: for every loaded environment, a GET request to "/" gets status 200
and a body equal exactly to the JSON object with message
"Fish-Net API is running" and version "0.5.0". -/
theorem root_endpoint_ok (env : Env) :
    (handleRequest env { method := "GET", path := "/" }).status = 200 ∧
    (handleRequest env { method := "GET", path := "/" }).body =
      Json.obj [("message", Json.str "Fish-Net API is running"),
                ("version", Json.str "0.5.0")] :=
  ⟨rfl, rfl⟩

/-- C2: for every loaded environment, a GET request to "/api/health" gets
status 200 and a body equal exactly to the JSON object with status
"healthy". -/
theorem health_endpoint_ok (env : Env) :
    (handleRequest env { method := "GET", path := "/api/health" }).status = 200 ∧
    (handleRequest env { method := "GET", path := "/api/health" }).body =
      Json.obj [("status", Json.str "healthy")] :=
  ⟨rfl, rfl⟩

/-- C3: every response for the two defined routes carries the configured
cross-origin headers: allow-origin "*", allow-credentials "true",
allow-methods "*", allow-headers "*"; in particular the
access-control-allow-origin "*" header is present. -/
theorem cors_headers_on_routes (env : Env) :
    (("access-control-allow-origin", "*") ∈
        (handleRequest env { method := "GET", path := "/" }).headers ∧
     ("access-control-allow-credentials", "true") ∈
        (handleRequest env { method := "GET", path := "/" }).headers ∧
     ("access-control-allow-methods", "*") ∈
        (handleRequest env { method := "GET", path := "/" }).headers ∧
     ("access-control-allow-headers", "*") ∈
        (handleRequest env { method := "GET", path := "/" }).headers) ∧
    (("access-control-allow-origin", "*") ∈
        (handleRequest env { method := "GET", path := "/api/health" }).headers ∧
     ("access-control-allow-credentials", "true") ∈
        (handleRequest env { method := "GET", path := "/api/health" }).headers ∧
     ("access-control-allow-methods", "*") ∈
        (handleRequest env { method := "GET", path := "/api/health" }).headers ∧
     ("access-control-allow-headers", "*") ∈
        (handleRequest env { method := "GET", path := "/api/health" }).headers) := by
  have h1 : (handleRequest env { method := "GET", path := "/" }).headers =
      corsHeaders corsConfig := rfl
  have h2 : (handleRequest env { method := "GET", path := "/api/health" }).headers =
      corsHeaders corsConfig := rfl
  rw [h1, h2]
  decide

/-- C4: a GET request to any path other than "/" and "/api/health" gets the
framework-default 404, a non-2xx status — never 200. -/
theorem undefined_route_non2xx (env : Env) (p : String)
    (h1 : p ≠ "/") (h2 : p ≠ "/api/health") :
    (handleRequest env { method := "GET", path := p }).status = 404 ∧
    ¬ (200 ≤ (handleRequest env { method := "GET", path := p }).status ∧
        (handleRequest env { method := "GET", path := p }).status ≤ 299) := by
  have h : handleRequest env { method := "GET", path := p } =
      notFoundResponse corsConfig := by
    simp [handleRequest, handleRequestSt, h1, h2]
  rw [h]
  exact ⟨rfl, by decide⟩

/-- Witness for C4 at the concrete undefined route "/nope" in the empty
environment. -/
theorem undefined_route_non2xx_witness :
    (handleRequest [] { method := "GET", path := "/nope" }).status = 404 ∧
    ¬ (200 ≤ (handleRequest [] { method := "GET", path := "/nope" }).status ∧
        (handleRequest [] { method := "GET", path := "/nope" }).status ≤ 299) :=
  undefined_route_non2xx [] "/nope" (by decide) (by decide)

/-- C5: handling any request leaves the program state unchanged, and a
second call with the identical input (made from the state left by the first
call) yields an identical response — idempotence and two-run determinism of
both handlers. -/
theorem endpoints_idempotent (s : AppState) (req : Request) :
    (handleRequestSt s req).2 = s ∧
    (handleRequestSt (handleRequestSt s req).2 req).1 =
      (handleRequestSt s req).1 :=
  ⟨rfl, rfl⟩

/-- C6: neither handler ever raises the imported HTTPException: each is
exactly a successful return of its literal body, so the error branch of the
dispatch is unreachable for the two routes. -/
theorem handlers_never_raise :
    root = Except.ok rootBody ∧
    health_check = Except.ok healthBody ∧
    (∀ e : HTTPException, root ≠ Except.error e) ∧
    (∀ e : HTTPException, health_check ≠ Except.error e) :=
  ⟨rfl, rfl, fun _ h => Except.noConfusion h, fun _ h => Except.noConfusion h⟩

/-- C7: the two endpoints' responses do not depend on the loaded
environment: any two environment assignments — including the result of
loading an absent .env file — give identical responses for GET "/" and for
GET "/api/health". -/
theorem env_noninterference (env1 env2 : Env) :
    handleRequest env1 { method := "GET", path := "/" } =
      handleRequest env2 { method := "GET", path := "/" } ∧
    handleRequest env1 { method := "GET", path := "/api/health" } =
      handleRequest env2 { method := "GET", path := "/api/health" } :=
  ⟨rfl, rfl⟩

/-- C8: handling any request leaves the whole program state unchanged: the
application object, the CORS configuration and the loaded environment (the
only module-level state) after the call are those before it. -/
theorem handlers_no_side_effects (s : AppState) (req : Request) :
    ((handleRequestSt s req).2).app = s.app ∧
    ((handleRequestSt s req).2).cors = s.cors ∧
    ((handleRequestSt s req).2).env = s.env :=
  ⟨rfl, rfl, rfl⟩

/-- C9: the "version" field of the root endpoint's body equals the version
metadata of the application instance. -/
theorem root_version_matches_app_version :
    jsonLookup rootBody "version" = some (Json.str app.version) :=
  rfl

/-- C10: for any sequence of requests handled in order from a state, each
response equals the response that request would get alone from the initial
state, and the final state is the initial state — so interleaved calls to
the endpoints produce responses independent of call order, with no
cross-request effect. -/
theorem responses_order_independent (s : AppState) (reqs : List Request) :
    (runAll s reqs).1 = reqs.map (fun r => (handleRequestSt s r).1) ∧
    (runAll s reqs).2 = s := by
  induction reqs with
  | nil => exact ⟨rfl, rfl⟩
  | cons r rest ih =>
    have hs : (handleRequestSt s r).2 = s := rfl
    refine ⟨?_, ?_⟩
    · show (handleRequestSt s r).1 :: (runAll (handleRequestSt s r).2 rest).1 =
        (handleRequestSt s r).1 :: rest.map (fun r => (handleRequestSt s r).1)
      rw [hs, ih.1]
    · show (runAll (handleRequestSt s r).2 rest).2 = s
      rw [hs, ih.2]
